import Mathlib

/-!
# Verification of the snapback order-lifecycle engine

Shallow embedding of the core components of the snapback repository
(`backend/strategy.py`, `backend/xt_trader.py`, `backend/storage.py`,
`backend/order_scheduler.py`, and the validation glue of `backend/app.py`
and `backend/utils.py`), together with proofs and refutations of the
frozen specification claims.

Python floats are modelled as exact rationals (`ℚ`); Python `int` is `ℤ`;
`datetime` values are modelled as a calendar-day index plus seconds since
midnight.  Fallible paths return `Except`/`Option`; I/O collaborators
(market data, the brokerage endpoint, the filesystem) are passed in as
explicit parameters or environment records.
-/

namespace Snapback

/-! ## Python numeric primitives -/

/-- Python `int(q)` applied to a number: truncation toward zero. -/
def pyInt (q : ℚ) : ℤ :=
  if 0 ≤ q then ⌊q⌋ else ⌈q⌉

/-- Python `round(q)` to an integer: round half to even (banker's rounding),
modelled on exact rationals. -/
def roundHalfEven (q : ℚ) : ℤ :=
  if q - (⌊q⌋ : ℚ) < 1/2 then ⌊q⌋
  else if 1/2 < q - (⌊q⌋ : ℚ) then ⌊q⌋ + 1
  else if ⌊q⌋ % 2 = 0 then ⌊q⌋ else ⌊q⌋ + 1

/-- Python `round(q, 2)`: round to two decimal places. -/
def round2 (q : ℚ) : ℚ :=
  (roundHalfEven (q * 100) : ℚ) / 100

theorem abs_roundHalfEven_sub_le (q : ℚ) : |(roundHalfEven q : ℚ) - q| ≤ 1/2 := by
  have h0 : (⌊q⌋ : ℚ) ≤ q := Int.floor_le q
  have h1 : q < (⌊q⌋ : ℚ) + 1 := Int.lt_floor_add_one q
  unfold roundHalfEven
  split_ifs with hlt hgt hev
  · rw [abs_le]; constructor <;> linarith
  · rw [abs_le]; push_cast; constructor <;> linarith
  · rw [abs_le]; constructor <;> linarith
  · rw [abs_le]; push_cast; constructor <;> linarith

theorem abs_round2_sub_le (q : ℚ) : |round2 q - q| ≤ 1/200 := by
  have h := abs_roundHalfEven_sub_le (q * 100)
  have : round2 q - q = ((roundHalfEven (q * 100) : ℚ) - q * 100) / 100 := by
    unfold round2; ring
  rw [this, abs_div]
  rw [show |(100 : ℚ)| = 100 by norm_num]
  linarith

/-! ## Level Engine and Order Planner (`backend/strategy.py`)

`find_latest_limit_up` performs baostock network I/O; its result (a dict or
`None`) is the market-data collaborator's answer and is passed to
`generate_pyramid_orders` as an explicit parameter here. -/

/-- The dict returned by `FibonacciPyramidStrategy.find_latest_limit_up`. -/
structure LimitInfo where
  limit_up_date : String
  limit_up_price : ℚ
  highest_price : ℚ
  lowest_price : ℚ
  current_price : ℚ
  stock_code : String
deriving DecidableEq

/-- The dict returned by `FibonacciPyramidStrategy.calculate_fibonacci_levels`:
each retracement ratio mapped to `high - (high - low) * ratio`. -/
structure FibLevels where
  r382 : ℚ
  r500 : ℚ
  r618 : ℚ
  r700 : ℚ
  r786 : ℚ
deriving DecidableEq

def calculate_fibonacci_levels (high low : ℚ) : FibLevels :=
  { r382 := high - (high - low) * 0.382
    r500 := high - (high - low) * 0.500
    r618 := high - (high - low) * 0.618
    r700 := high - (high - low) * 0.700
    r786 := high - (high - low) * 0.786 }

/-- `np.linspace start stop num` for `num ≥ 2`: `num` evenly spaced samples
with both endpoints included. -/
def linspace (start stop : ℚ) (num : ℕ) : List ℚ :=
  (List.range num).map fun i => start + (stop - start) * i / ((num : ℚ) - 1)

/-- One element of the `orders` list built by `generate_pyramid_orders`. -/
structure PlannedOrder where
  stage : ℕ
  order_no : ℕ
  price : ℚ
  amount : ℚ
  percentage : ℚ
  description : String
deriving DecidableEq

/-- The `summary` dict of a generated plan. -/
structure PlanSummary where
  total_orders : ℕ
  stage1_orders : ℕ
  stage1_amount : ℚ
  stage2_orders : ℕ
  stage2_amount : ℚ
deriving DecidableEq

/-- The dict returned by `generate_pyramid_orders`. -/
structure OrderPlan where
  stock_code : String
  total_amount : ℚ
  limit_up_info : LimitInfo
  fibonacci_levels : FibLevels
  orders : List PlannedOrder
  summary : PlanSummary
deriving DecidableEq

/-- `FibonacciPyramidStrategy.generate_pyramid_orders`.  The result of the
internal `find_latest_limit_up` call (market-data I/O) is the `limit_info`
parameter; `None` makes the source raise, modelled as `.error`. -/
def generate_pyramid_orders (stock_code : String) (total_amount : ℚ)
    (limit_info : Option LimitInfo) : Except String OrderPlan :=
  match limit_info with
  | none => .error ("未找到股票 " ++ stock_code ++ " 最近60天的涨停记录")
  | some li =>
    let high := li.highest_price
    let low := li.lowest_price
    let fib_levels := calculate_fibonacci_levels high low
    let stage1_amount := total_amount * 0.7
    let stage1_per_order := stage1_amount / 5
    let price_range_1 := linspace fib_levels.r500 fib_levels.r618 5
    let orders1 : List PlannedOrder := price_range_1.enum.map fun p =>
      { stage := 1
        order_no := p.1 + 1
        price := round2 p.2
        amount := round2 stage1_per_order
        percentage := 14.0
        description := "第一阶段第" ++ toString (p.1 + 1) ++ "单 (0.5-0.618回调区间)" }
    let stage2_amount := total_amount * 0.3
    let stage2_per_order := stage2_amount / 3
    let price_range_2 := linspace fib_levels.r618 fib_levels.r700 3
    let orders2 : List PlannedOrder := price_range_2.enum.map fun p =>
      { stage := 2
        order_no := p.1 + 1
        price := round2 p.2
        amount := round2 stage2_per_order
        percentage := 10.0
        description := "第二阶段第" ++ toString (p.1 + 1) ++ "单 (0.618-0.7回调区间)" }
    .ok
      { stock_code := stock_code
        total_amount := total_amount
        limit_up_info := li
        fibonacci_levels := fib_levels
        orders := orders1 ++ orders2
        summary :=
          { total_orders := (orders1 ++ orders2).length
            stage1_orders := 5
            stage1_amount := round2 stage1_amount
            stage2_orders := 3
            stage2_amount := round2 stage2_amount } }

/-! ## Trade Executor (`backend/xt_trader.py`)

`XTTraderClient` holds mutable connection state; the brokerage endpoint
(`self.xttrader`) is external, so every endpoint outcome is a field of an
explicit `Env` record.  Methods become state-passing functions
`... → ExecState → result × ExecState`.  `time.time()` is the `now`
parameter. -/

/-- Python `str.strip()` (whitespace model restricted to ASCII whitespace). -/
def pyStrip (s : String) : String :=
  ⟨((s.data.dropWhile Char.isWhitespace).reverse.dropWhile Char.isWhitespace).reverse⟩

/-- Python `str.lower()` (ASCII model). -/
def pyLower (s : String) : String :=
  ⟨s.data.map Char.toLower⟩

def LOT_SIZE : ℤ := 100
def MIN_LOT_SIZE : ℤ := 100

/-- The mutable connection state of `XTTraderClient`:
`is_connected`, `is_mock_mode`, `_last_heartbeat`, and whether
`self.xttrader` is not `None`. -/
structure ExecState where
  is_connected : Bool
  is_mock_mode : Bool
  last_heartbeat : Option ℕ
  has_xttrader : Bool
deriving DecidableEq

/-- Mock `query_asset` payload. -/
structure AssetInfo where
  cash : ℚ
  total_asset : ℚ
  market_value : ℚ
deriving DecidableEq

structure OrderInfo where
  order_id : ℤ
  stock_code : String
  order_volume : ℤ
  price : ℚ
  order_status : Option ℤ
  order_sysid : Option String
deriving DecidableEq

structure TradeInfo where
  account_id : String
  stock_code : String
  order_id : ℤ
  traded_volume : ℤ
  traded_price : ℚ
deriving DecidableEq

structure PositionInfo where
  account_id : String
  stock_code : String
  volume : ℤ
  can_use_volume : ℤ
  avg_price : ℚ
deriving DecidableEq

/-- Fixed outcomes of the live brokerage endpoint for one scenario.
`none` in an `Option` field models the corresponding call raising an
exception (or returning `None`/empty where the source treats those alike). -/
structure Env where
  connect_raises : Bool
  connect_result : ℤ
  subscribe_result : ℤ
  order_stock : Option ℤ
  order_stock_async : Option ℤ
  cancel_result : Option ℤ
  asset : Option AssetInfo
  order_info : Option OrderInfo
  orders_info : Option (List OrderInfo)
  trades_info : Option (List TradeInfo)
  positions_info : Option (List PositionInfo)
  position_info : Option PositionInfo
deriving DecidableEq

/-- `XTTraderClient.connect`. -/
def connect (env : Env) (now : ℕ) (s : ExecState) : Bool × ExecState :=
  if s.is_mock_mode then (true, { s with is_connected := true })
  else if !s.has_xttrader then (false, s)
  else if env.connect_raises then (false, { s with is_connected := false })
  else if env.connect_result ≠ 0 then (false, s)
  else if env.subscribe_result ≠ 0 then (false, { s with is_connected := false })
  else (true, { s with is_connected := true, last_heartbeat := some now })

/-- `XTTraderClient.disconnect`. -/
def disconnect (s : ExecState) : ExecState :=
  if !s.is_connected then s
  else { s with is_connected := false }

/-- `XTTraderClient.reconnect` (the `_reconnect_lock` serialises calls; a
single sequential call is modelled). -/
def reconnect (env : Env) (now : ℕ) (s : ExecState) : Bool × ExecState :=
  let s1 := if s.is_connected then disconnect s else s
  connect env now s1

/-- `XTTraderClient.check_connection`. -/
def check_connection (env : Env) (now : ℕ) (s : ExecState) : Bool × ExecState :=
  if s.is_mock_mode then (s.is_connected, s)
  else if !s.is_connected then connect env now s
  else if s.has_xttrader then (true, { s with last_heartbeat := some now })
  else reconnect env now s

/-- Messages produced by the trading client, with their interpolated values
(the exact Chinese format strings of the source are abstracted to
constructors carrying the interpolated data). -/
inductive TradeMsg where
  | reconnectFailed
  | priceNotPositive (price : ℚ)
  | volumeNotLot (volume : ℤ)
  | directionInvalid (direction : String)
  | mockOrderSubmitted
  | orderSubmitted
  | orderFailed
  | mockAsyncSubmitted
  | asyncSubmitted
  | asyncFailed
  | emptyStockCode
  | amountNotPositive (amount : ℚ)
  | belowOneLot (min_amount : ℚ)
  | mockCancelSubmitted
  | cancelSubmitted
  | cancelFailed (code : ℤ)
  | cancelRaised
deriving DecidableEq

/-- An order id: the mock path builds `"MOCK_{stock_code}_{int(time.time())}"`,
the live path returns the endpoint integer. -/
inductive OrderId where
  | mock (stock_code : String) (t : ℕ)
  | real (id : ℤ)
deriving DecidableEq

structure PlaceResult where
  success : Bool
  order_id : Option OrderId
  message : TradeMsg
deriving DecidableEq

/-- `XTTraderClient.place_order` (the `xtconstant` side constant only feeds
the endpoint call and is not modelled; `order_type`/`strategy_name`/`remark`
do not influence the result shape). -/
def place_order (env : Env) (now : ℕ) (s : ExecState) (stock_code : String)
    (price : ℚ) (volume : ℤ) (direction : String) : PlaceResult × ExecState :=
  let c := check_connection env now s
  if !c.1 then (⟨false, none, .reconnectFailed⟩, c.2)
  else if price ≤ 0 then (⟨false, none, .priceNotPositive price⟩, c.2)
  else if volume < MIN_LOT_SIZE ∨ volume % LOT_SIZE ≠ 0 then
    (⟨false, none, .volumeNotLot volume⟩, c.2)
  else if pyLower direction ≠ "buy" ∧ pyLower direction ≠ "sell" then
    (⟨false, none, .directionInvalid direction⟩, c.2)
  else if c.2.is_mock_mode then
    (⟨true, some (.mock stock_code now), .mockOrderSubmitted⟩, c.2)
  else
    match env.order_stock with
    | some id => (⟨true, some (.real id), .orderSubmitted⟩, c.2)
    | none => (⟨false, none, .orderFailed⟩, c.2)

/-- `XTTraderClient._calculate_volume`. -/
def calculate_volume (amount price : ℚ) : ℤ :=
  if price ≤ 0 then 0
  else
    let total_shares := pyInt (amount / price)
    (Int.fdiv total_shares LOT_SIZE) * LOT_SIZE

/-- One entry of the `orders` argument of `batch_place_orders`
(after the `float(...)` coercions of the source). -/
structure BatchOrder where
  stock_code : String
  price : ℚ
  amount : ℚ
deriving DecidableEq

/-- One entry of the result list of `batch_place_orders`; validation
failures carry no `order_id`/`volume` keys, modelled as `none`. -/
structure BatchResult where
  order : BatchOrder
  success : Bool
  order_id : Option OrderId
  volume : Option ℤ
  message : TradeMsg
deriving DecidableEq

/-- The body of the `batch_place_orders` loop for a single input order. -/
def processBatchOrder (env : Env) (now : ℕ) (s : ExecState) (o : BatchOrder) :
    BatchResult × ExecState :=
  let stock_code := pyStrip o.stock_code
  if stock_code = "" then (⟨o, false, none, none, .emptyStockCode⟩, s)
  else if o.price ≤ 0 then (⟨o, false, none, none, .priceNotPositive o.price⟩, s)
  else if o.amount ≤ 0 then (⟨o, false, none, none, .amountNotPositive o.amount⟩, s)
  else
    let volume := calculate_volume o.amount o.price
    if volume < MIN_LOT_SIZE then
      (⟨o, false, none, none, .belowOneLot (o.price * MIN_LOT_SIZE)⟩, s)
    else
      let r := place_order env now s stock_code o.price volume "buy"
      (⟨o, r.1.success, r.1.order_id, some volume, r.1.message⟩, r.2)

/-- `XTTraderClient.batch_place_orders`. -/
def batch_place_orders (env : Env) (now : ℕ) :
    ExecState → List BatchOrder → List BatchResult × ExecState
  | s, [] => ([], s)
  | s, o :: rest =>
    let r := processBatchOrder env now s o
    let rs := batch_place_orders env now r.2 rest
    (r.1 :: rs.1, rs.2)

structure CancelResult where
  success : Bool
  message : TradeMsg
deriving DecidableEq

/-- `XTTraderClient.cancel_order`. -/
def cancel_order (env : Env) (now : ℕ) (s : ExecState) (_order_id : ℤ) :
    CancelResult × ExecState :=
  let c := check_connection env now s
  if !c.1 then (⟨false, .reconnectFailed⟩, c.2)
  else if c.2.is_mock_mode then (⟨true, .mockCancelSubmitted⟩, c.2)
  else
    match env.cancel_result with
    | some r => if r = 0 then (⟨true, .cancelSubmitted⟩, c.2)
                else (⟨false, .cancelFailed r⟩, c.2)
    | none => (⟨false, .cancelRaised⟩, c.2)

structure AsyncResult where
  success : Bool
  seq : Option ℤ
  message : TradeMsg
deriving DecidableEq

/-- `XTTraderClient.place_order_async` (mock `seq` is `int(time.time())`). -/
def place_order_async (env : Env) (now : ℕ) (s : ExecState) (_stock_code : String)
    (price : ℚ) (volume : ℤ) (direction : String) : AsyncResult × ExecState :=
  let c := check_connection env now s
  if !c.1 then (⟨false, none, .reconnectFailed⟩, c.2)
  else if price ≤ 0 then (⟨false, none, .priceNotPositive price⟩, c.2)
  else if volume < MIN_LOT_SIZE ∨ volume % LOT_SIZE ≠ 0 then
    (⟨false, none, .volumeNotLot volume⟩, c.2)
  else if pyLower direction ≠ "buy" ∧ pyLower direction ≠ "sell" then
    (⟨false, none, .directionInvalid direction⟩, c.2)
  else if c.2.is_mock_mode then (⟨true, some (now : ℤ), .mockAsyncSubmitted⟩, c.2)
  else
    match env.order_stock_async with
    | some seq => (⟨true, some seq, .asyncSubmitted⟩, c.2)
    | none => (⟨false, none, .asyncFailed⟩, c.2)

/-- `XTTraderClient.query_asset` (mock returns a fixed cash balance). -/
def query_asset (env : Env) (now : ℕ) (s : ExecState) :
    Option AssetInfo × ExecState :=
  let c := check_connection env now s
  if !c.1 then (none, c.2)
  else if c.2.is_mock_mode then (some ⟨100000.0, 100000.0, 0.0⟩, c.2)
  else (env.asset, c.2)

/-- `XTTraderClient.query_order` (mock returns fixed stub data echoing the id). -/
def query_order (env : Env) (now : ℕ) (s : ExecState) (order_id : ℤ) :
    Option OrderInfo × ExecState :=
  let c := check_connection env now s
  if !c.1 then (none, c.2)
  else if c.2.is_mock_mode then
    (some ⟨order_id, "000001.SZ", 100, 10.0, none, none⟩, c.2)
  else (env.order_info, c.2)

/-- `XTTraderClient.query_orders` (exception path returns `[]`). -/
def query_orders (env : Env) (now : ℕ) (s : ExecState) :
    List OrderInfo × ExecState :=
  let c := check_connection env now s
  if !c.1 then ([], c.2)
  else if c.2.is_mock_mode then ([], c.2)
  else (env.orders_info.getD [], c.2)

/-- `XTTraderClient.query_trades` (exception path returns `[]`). -/
def query_trades (env : Env) (now : ℕ) (s : ExecState) :
    List TradeInfo × ExecState :=
  let c := check_connection env now s
  if !c.1 then ([], c.2)
  else if c.2.is_mock_mode then ([], c.2)
  else (env.trades_info.getD [], c.2)

/-- `XTTraderClient.query_positions` (exception path returns `[]`). -/
def query_positions (env : Env) (now : ℕ) (s : ExecState) :
    List PositionInfo × ExecState :=
  let c := check_connection env now s
  if !c.1 then ([], c.2)
  else if c.2.is_mock_mode then ([], c.2)
  else (env.positions_info.getD [], c.2)

/-- `XTTraderClient.query_position` (mock returns `None`). -/
def query_position (env : Env) (now : ℕ) (s : ExecState) (_stock_code : String) :
    Option PositionInfo × ExecState :=
  let c := check_connection env now s
  if !c.1 then (none, c.2)
  else if c.2.is_mock_mode then (none, c.2)
  else (env.position_info, c.2)

/-! ## Pending-Order Scheduler (`backend/order_scheduler.py`)

`datetime` values are a calendar-day index plus seconds since midnight.
The scheduler's trader calls `self.trader.check_and_save_pending_orders(...)`
and `self.trader.reload_pending_orders(...)` look those attributes up on
`XTTraderClient`; the class (see `xtTraderClientMethods`) defines no such
attributes and never assigns them, so in Python the lookup raises
`AttributeError`, which the surrounding `try`/`except` catches and logs. -/

/-- A `datetime.datetime`: calendar-day index and seconds since midnight. -/
structure PyDateTime where
  day : ℕ
  sec : ℕ
deriving DecidableEq

/-- Seconds since the epoch, for `timedelta` comparisons. -/
def PyDateTime.total (t : PyDateTime) : ℤ :=
  (t.day : ℤ) * 86400 + t.sec

/-- `get_market_close_time`: the same day at 15:00. -/
def get_market_close_time (t : PyDateTime) : PyDateTime :=
  { t with sec := 15 * 3600 }

/-- `get_market_open_time`: the same day at 9:30. -/
def get_market_open_time (t : PyDateTime) : PyDateTime :=
  { t with sec := 9 * 3600 + 30 * 60 }

/-- `OrderScheduler` mutable timer state. -/
structure SchedulerState where
  last_check_time : Option PyDateTime
  last_reload_time : Option PyDateTime
deriving DecidableEq

inductive PyError where
  | attributeError (name : String)
deriving DecidableEq

deriving instance DecidableEq for Except

/-- The attributes defined on `XTTraderClient` in `backend/xt_trader.py`
(methods of the class body; no `__getattr__` and no dynamic assignment of
further method names exists anywhere in the repository). -/
def xtTraderClientMethods : List String :=
  ["connect", "check_connection", "reconnect", "place_order",
   "batch_place_orders", "cancel_order", "place_order_async",
   "query_asset", "query_order", "query_orders", "query_trades",
   "query_positions", "query_position", "run_forever", "disconnect"]

/-- The scheduler's call `self.trader.check_and_save_pending_orders(file)`:
`XTTraderClient` has no such attribute, so the call raises `AttributeError`.
The `.ok` branch is unreachable for the shipped class. -/
def trader_check_and_save_pending_orders : Except PyError (List BatchOrder) :=
  if "check_and_save_pending_orders" ∈ xtTraderClientMethods then .ok []
  else .error (.attributeError "check_and_save_pending_orders")

/-- The scheduler's call `self.trader.reload_pending_orders(file)`: likewise
no such attribute on `XTTraderClient`. -/
def trader_reload_pending_orders : Except PyError (List BatchOrder) :=
  if "reload_pending_orders" ∈ xtTraderClientMethods then .ok []
  else .error (.attributeError "reload_pending_orders")

/-- `OrderScheduler._check_pending_orders`.  Returns the new state and
`some r` when the windowed capture was triggered (with `r` the outcome of
the trader call), `none` when the tick was skipped.  An exception from the
trader call is caught by the `except` clause before
`self._last_check_time = now` runs, so the timestamp is then not updated. -/
def check_pending_orders (now : PyDateTime) (st : SchedulerState) :
    SchedulerState × Option (Except PyError (List BatchOrder)) :=
  let close_time := get_market_close_time now
  let check_time := close_time.total - 3 * 60
  if check_time ≤ now.total ∧ now.total ≤ close_time.total then
    if st.last_check_time = none ∨
        (∀ last ∈ st.last_check_time, now.total - last.total ≥ 60) then
      match trader_check_and_save_pending_orders with
      | .error e => (st, some (.error e))
      | .ok pending => ({ st with last_check_time := some now }, some (.ok pending))
    else (st, none)
  else (st, none)

/-- `OrderScheduler._reload_pending_orders`.  Same convention as
`check_pending_orders`; the duplicate guard compares calendar dates. -/
def reload_pending_orders (now : PyDateTime) (st : SchedulerState) :
    SchedulerState × Option (Except PyError (List BatchOrder)) :=
  let open_time := get_market_open_time now
  let reload_time := open_time.total + 3 * 60
  let reload_end_time := open_time.total + 10 * 60
  if reload_time ≤ now.total ∧ now.total ≤ reload_end_time then
    if st.last_reload_time = none ∨
        (∀ last ∈ st.last_reload_time, last.day ≠ now.day) then
      match trader_reload_pending_orders with
      | .error e => (st, some (.error e))
      | .ok results => ({ st with last_reload_time := some now }, some (.ok results))
    else (st, none)
  else (st, none)

/-! ## Ledger (`backend/storage.py`)

The orders file holds a JSON list of records; each operation reads the whole
list and (for writes) rewrites it.  The file content is the `List LedgerRecord`
parameter/return value; the payload type is abstract. -/

/-- One persisted record: `{order_id, timestamp, data}`. -/
structure LedgerRecord (α : Type) where
  order_id : String
  timestamp : String
  data : α
deriving DecidableEq

/-- `OrderStorage.save_order`.  The source generates
`order_id = datetime.now().strftime(%Y%m%d%H%M%S%f)` and
`timestamp = datetime.now().isoformat()`; both clock readings are explicit
parameters here.  Returns the id and the rewritten file content. -/
def save_order {α : Type} (order_id timestamp : String) (order_data : α)
    (orders : List (LedgerRecord α)) : String × List (LedgerRecord α) :=
  (order_id, orders ++ [{ order_id := order_id, timestamp := timestamp, data := order_data }])

/-- `OrderStorage.get_order_by_id`: first record with the given id, else `None`. -/
def get_order_by_id {α : Type} (order_id : String) (orders : List (LedgerRecord α)) :
    Option (LedgerRecord α) :=
  orders.find? fun o => o.order_id == order_id

/-- `OrderStorage.get_recent_orders`: `orders[-limit:][::-1]`.  Python slice
semantics: for `limit ≥ 1` the last `min limit len` records; for `limit = 0`
the slice `[-0:] = [0:]` is the whole list. -/
def get_recent_orders {α : Type} (limit : ℕ) (orders : List (LedgerRecord α)) :
    List (LedgerRecord α) :=
  (if limit = 0 then orders else orders.drop (orders.length - limit)).reverse

/-- `OrderStorage.delete_order`: filters the id out; rewrites the file only
when the length changed, returning whether a record was removed together
with the resulting file content. -/
def delete_order {α : Type} (order_id : String) (orders : List (LedgerRecord α)) :
    Bool × List (LedgerRecord α) :=
  let new_orders := orders.filter fun o => o.order_id != order_id
  if new_orders.length = orders.length then (false, orders)
  else (true, new_orders)

/-! ## HTTP validation glue (`backend/app.py`, `backend/utils.py`)

Only the `/api/analyze` handler's validation-and-dispatch path is needed
(for the capital check); persistence of the generated plan is elided. -/

/-- Python `str.isdigit()` restricted to ASCII digits; empty string is falsy. -/
def pyIsdigit (s : String) : Bool :=
  !s.data.isEmpty && s.data.all Char.isDigit

/-- `utils.validate_stock_code`. -/
def validate_stock_code (stock_code : String) : Bool × String :=
  if stock_code = "" then (false, "股票代码不能为空")
  else
    let code := pyLower (pyStrip stock_code)
    if code.startsWith "sh." ∨ code.startsWith "sz." then
      let code_num := code.drop 3
      if !pyIsdigit code_num ∨ code_num.length ≠ 6 then
        (false, "股票代码格式错误，应为6位数字")
      else (true, code)
    else if !pyIsdigit code ∨ code.length ≠ 6 then
      (false, "股票代码格式错误，应为6位数字")
    else if code.startsWith "6" then (true, "sh." ++ code)
    else if code.startsWith "0" ∨ code.startsWith "3" then (true, "sz." ++ code)
    else (false, "无法识别的股票代码，上海以6开头，深圳以0或3开头")

/-- The `{success, data|message}` envelope of the HTTP layer with its status
code. -/
inductive ApiResp (α : Type) where
  | ok (data : α)
  | err (message : String) (status : ℕ)
deriving DecidableEq

/-- The `/api/analyze` handler (`app.analyze_stock`): request parsing and the
`float(...)` coercion are elided (the amount arrives as a number), and the
`storage.save_order` persistence step after a successful plan is elided; a
raised planner exception is converted to a 500 by `handle_exceptions`. -/
def analyze_stock (stock_code_in : String) (total_amount : ℚ)
    (limit_info : Option LimitInfo) : ApiResp OrderPlan :=
  let stock_code := pyStrip stock_code_in
  if stock_code = "" then .err "请输入股票代码" 400
  else if total_amount ≤ 0 then .err "总金额必须大于0" 400
  else
    match validate_stock_code stock_code with
    | (false, msg) => .err msg 400
    | (true, code) =>
      match generate_pyramid_orders code total_amount limit_info with
      | .error e => .err e 500
      | .ok plan => .ok plan

/-! ## Shared helper lemmas and concrete fixtures -/

theorem floor_fdiv (q : ℚ) (n : ℤ) (hn : 0 < n) : Int.fdiv ⌊q⌋ n = ⌊q / (n : ℚ)⌋ := by
  rw [Int.fdiv_eq_ediv _ hn.le]
  have ha : n * (⌊q⌋ / n) + ⌊q⌋ % n = ⌊q⌋ := Int.ediv_add_emod ⌊q⌋ n
  have hr0 : 0 ≤ ⌊q⌋ % n := Int.emod_nonneg ⌊q⌋ (ne_of_gt hn)
  have hrn : ⌊q⌋ % n < n := Int.emod_lt_of_pos ⌊q⌋ hn
  have hfl : (⌊q⌋ : ℚ) ≤ q := Int.floor_le q
  have hfu : q < (⌊q⌋ : ℚ) + 1 := Int.lt_floor_add_one q
  have hnQ : (0 : ℚ) < (n : ℚ) := by exact_mod_cast hn
  have z1 : ((⌊q⌋ / n : ℤ) : ℚ) * (n : ℚ) ≤ q := by
    have h2 : (⌊q⌋ / n) * n ≤ ⌊q⌋ := by nlinarith [ha, hr0]
    have h2q : ((⌊q⌋ / n : ℤ) : ℚ) * (n : ℚ) ≤ (⌊q⌋ : ℚ) := by exact_mod_cast h2
    linarith
  have z2 : q < (((⌊q⌋ / n : ℤ) : ℚ) + 1) * (n : ℚ) := by
    have h3 : ⌊q⌋ + 1 ≤ (⌊q⌋ / n + 1) * n := by nlinarith [ha, hrn]
    have h3q : (⌊q⌋ : ℚ) + 1 ≤ (((⌊q⌋ / n : ℤ) : ℚ) + 1) * (n : ℚ) := by exact_mod_cast h3
    linarith
  symm
  rw [Int.floor_eq_iff]
  constructor
  · rw [le_div_iff₀ hnQ]; exact z1
  · rw [div_lt_iff₀ hnQ]; linarith

/-- A fixed brokerage-endpoint scenario for concrete evaluations. -/
def env0 : Env :=
  { connect_raises := false, connect_result := 0, subscribe_result := 0
    order_stock := some 1, order_stock_async := some 1, cancel_result := some 0
    asset := none, order_info := none, orders_info := none
    trades_info := none, positions_info := none, position_info := none }

/-- A concrete spike-window fixture (high = 100, low = 80, as in the spec's
worked example). -/
def li0 : LimitInfo :=
  { limit_up_date := "2024-01-02", limit_up_price := 95
    highest_price := 100, lowest_price := 80
    current_price := 90, stock_code := "sh.600000" }

/-! ## Claim C2 — batch volume computation -/

/-- C2 counterexample: the claim quantifies over every `(amount, price)` with
`price > 0` and asserts the volume is always non-negative, but
`_calculate_volume(-50, 1)` returns `-100` (Python `int(-50/1) = -50`,
`-50 // 100 = -1`, `-1 * 100 = -100`). -/
theorem C2_counterexample : ((0:ℚ) < 1) ∧ calculate_volume (-50) 1 = -100 := by
  refine ⟨by norm_num, ?_⟩
  have hnp : ¬ (1 : ℚ) ≤ 0 := by norm_num
  have hq : ¬ (0:ℚ) ≤ (-50 : ℚ) / 1 := by norm_num
  simp only [calculate_volume, pyInt, LOT_SIZE, if_neg hnp, if_neg hq]
  have hc : ⌈(-50 : ℚ) / 1⌉ = -50 := by
    rw [show ((-50 : ℚ) / 1) = ((-50 : ℤ) : ℚ) by norm_num]
    exact Int.ceil_intCast _
  rw [hc]
  rfl

/-- C2 (amended to non-negative amounts, which the batch path guarantees by
validating `amount > 0` first): for `price > 0` and `amount ≥ 0` the volume
is `⌊amount/price/100⌋ * 100`, a non-negative multiple of 100, at most
`⌊amount/price⌋`; and `amount = 10000, price = 10.5` gives `900`. -/
theorem C2_volume_amended :
    (∀ amount price : ℚ, 0 < price → 0 ≤ amount →
      calculate_volume amount price = ⌊amount / price / 100⌋ * 100 ∧
      0 ≤ calculate_volume amount price ∧
      (100 : ℤ) ∣ calculate_volume amount price ∧
      calculate_volume amount price ≤ ⌊amount / price⌋) ∧
    calculate_volume 10000 (21/2) = 900 := by
  constructor
  · intro a p hp ha
    have hq : (0:ℚ) ≤ a / p := div_nonneg ha hp.le
    have hnp : ¬ p ≤ 0 := not_le.mpr hp
    have hmain : calculate_volume a p = ⌊a / p / 100⌋ * 100 := by
      simp only [calculate_volume, pyInt, LOT_SIZE, if_neg hnp, if_pos hq]
      rw [floor_fdiv (a / p) 100 (by norm_num)]
      norm_num
    refine ⟨hmain, ?_, ?_, ?_⟩
    · rw [hmain]
      have h0 : (0:ℤ) ≤ ⌊a / p / 100⌋ := Int.floor_nonneg.mpr (by positivity)
      positivity
    · rw [hmain]; exact dvd_mul_left 100 _
    · rw [hmain, Int.le_floor]
      push_cast
      have h1 : (⌊a / p / 100⌋ : ℚ) ≤ a / p / 100 := Int.floor_le _
      have h2 : (⌊a / p / 100⌋ : ℚ) * 100 ≤ (a / p / 100) * 100 := by linarith
      have h3 : (a / p / 100) * 100 = a / p := by ring
      linarith
  · have hnp : ¬ (21/2 : ℚ) ≤ 0 := by norm_num
    have hq : (0:ℚ) ≤ (10000 : ℚ) / (21/2) := by norm_num
    simp only [calculate_volume, pyInt, LOT_SIZE, if_neg hnp, if_pos hq]
    have hf : ⌊(10000 : ℚ) / (21/2)⌋ = 952 := by norm_num
    rw [hf]
    rfl

/-- C2 witness: the amended theorem instantiated at the spec's worked
example `amount = 10000, price = 10.5`. -/
theorem C2_volume_amended_witness :
    calculate_volume 10000 (21/2) = ⌊(10000 : ℚ) / (21/2) / 100⌋ * 100 ∧
    0 ≤ calculate_volume 10000 (21/2) ∧
    (100 : ℤ) ∣ calculate_volume 10000 (21/2) ∧
    calculate_volume 10000 (21/2) ≤ ⌊(10000 : ℚ) / (21/2)⌋ :=
  C2_volume_amended.1 10000 (21/2) (by norm_num) (by norm_num)

/-! ## Claims C4 and C6 — scheduler capture and debounce -/

/-- A trading-day tick at 14:58:00, inside the unfilled-check window
`[14:57, 15:00]`, with no prior check recorded. -/
def tickCheck1 : PyDateTime := ⟨20000, 53880⟩

/-- A second tick 10 seconds later, still inside the check window. -/
def tickCheck2 : PyDateTime := ⟨20000, 53890⟩

/-- A tick at 09:35:00, inside the reload window `[09:33, 09:40]`. -/
def tickReload1 : PyDateTime := ⟨20000, 34500⟩

/-- A second reload-window tick on the same calendar date. -/
def tickReload2 : PyDateTime := ⟨20000, 34510⟩

/-- The scheduler state at startup (`_last_check_time = _last_reload_time = None`). -/
def sched0 : SchedulerState := ⟨none, none⟩

/-- C4: on a tick inside the capture window the scheduler's trader call
raises `AttributeError` (no `check_and_save_pending_orders` on
`XTTraderClient`), so nothing is captured or persisted and the last-check
timestamp stays unset — the capture step never completes. -/
theorem C4_capture_raises :
    check_pending_orders tickCheck1 sched0 =
      (sched0, some (.error (.attributeError "check_and_save_pending_orders"))) := by
  decide

/-- C6: because the failed trader call prevents the timestamp updates, two
ticks 10 s apart inside the check window both trigger the capture attempt,
and two reload-window ticks on the same date both trigger the resubmission
attempt — the debounce never engages. -/
theorem C6_debounce_broken :
    ((check_pending_orders tickCheck1 sched0).2.isSome = true ∧
     (check_pending_orders tickCheck2
        (check_pending_orders tickCheck1 sched0).1).2.isSome = true) ∧
    ((reload_pending_orders tickReload1 sched0).2.isSome = true ∧
     (reload_pending_orders tickReload2
        (reload_pending_orders tickReload1 sched0).1).2.isSome = true) := by
  decide

/-! ## Claim C5 — capital validation -/

/-- C5 counterexample: the planner itself performs no capital validation;
at `total_amount = 0` (≤ 0) `generate_pyramid_orders` still returns a plan
instead of failing. -/
theorem C5_counterexample :
    (generate_pyramid_orders "sh.600000" 0 (some li0)).isOk = true := by
  rfl

/-- C5 (amended): the planner never rejects non-positive capital (it returns
a plan for every `total_amount` whenever a spike was found); the
`totalCapital ≤ 0` check lives in the HTTP `/api/analyze` handler, which
rejects with `"总金额必须大于0"` (status 400) before the planner runs. -/
theorem C5_capital_amended :
    (∀ (stock : String) (total_amount : ℚ) (li : LimitInfo),
      (generate_pyramid_orders stock total_amount (some li)).isOk = true) ∧
    (∀ (stock : String) (total_amount : ℚ) (li : Option LimitInfo),
      pyStrip stock ≠ "" → total_amount ≤ 0 →
      analyze_stock stock total_amount li = .err "总金额必须大于0" 400) := by
  constructor
  · intro stock total_amount li
    rfl
  · intro stock total_amount li h1 h2
    simp only [analyze_stock, if_neg h1, if_pos h2]

/-- C5 witness: the amended theorem at `stock = "600000"`, amount `0`. -/
theorem C5_capital_amended_witness :
    analyze_stock "600000" 0 none = .err "总金额必须大于0" 400 :=
  C5_capital_amended.2 "600000" 0 none (by decide) (by norm_num)

/-! ## Claim C8 — check_connection reconnect semantics -/

/-- C8 counterexample: in mock mode with the session not live,
`check_connection` returns `False` without attempting any reconnect, while
a reconnect would have succeeded (mock `connect` always succeeds) — so it
does not return "that reconnect's outcome". -/
theorem C8_counterexample :
    check_connection env0 5 ⟨false, true, none, true⟩ =
      (false, ⟨false, true, none, true⟩) ∧
    (reconnect env0 5 ⟨false, true, none, true⟩).1 = true := by
  decide

/-- C8 (amended): in mock mode `check_connection` returns the stored
connected flag and attempts no reconnect; in live mode it returns `True`
when the session is live and the trader object exists (refreshing the
heartbeat), and otherwise — session not live, or trader object missing —
it attempts exactly one reconnect and returns that reconnect's outcome. -/
theorem C8_check_connection_amended (env : Env) (now : ℕ) (s : ExecState) :
    (s.is_mock_mode = true → check_connection env now s = (s.is_connected, s)) ∧
    (s.is_mock_mode = false → s.is_connected = false →
      check_connection env now s = reconnect env now s) ∧
    (s.is_mock_mode = false → s.is_connected = true → s.has_xttrader = true →
      check_connection env now s = (true, { s with last_heartbeat := some now })) ∧
    (s.is_mock_mode = false → s.is_connected = true → s.has_xttrader = false →
      check_connection env now s = reconnect env now s) := by
  refine ⟨?_, ?_, ?_, ?_⟩
  · intro h
    simp [check_connection, h]
  · intro h1 h2
    simp [check_connection, reconnect, h1, h2]
  · intro h1 h2 h3
    simp [check_connection, h1, h2, h3]
  · intro h1 h2 h3
    simp [check_connection, h1, h2, h3]

/-- C8 witness: the amended theorem at a live-mode disconnected state with a
succeeding endpoint: the single reconnect succeeds and its outcome is
returned. -/
theorem C8_check_connection_amended_witness :
    check_connection env0 3 ⟨false, false, none, true⟩ =
      reconnect env0 3 ⟨false, false, none, true⟩ :=
  (C8_check_connection_amended env0 3 ⟨false, false, none, true⟩).2.1 rfl rfl

/-! ## Claim C10 — delete of a missing ledger id -/

/-- C10: deleting an id absent from the ledger returns `False` with the
stored sequence unchanged (the file is not rewritten), and whenever
`delete_order` reports `True` the rewritten sequence is strictly shorter
(at least one record was removed). -/
theorem C10_delete_missing (order_id : String) {α : Type}
    (orders : List (LedgerRecord α))
    (habsent : ∀ r ∈ orders, r.order_id ≠ order_id) :
    delete_order order_id orders = (false, orders) ∧
    ∀ (id2 : String) (os : List (LedgerRecord α)),
      (delete_order id2 os).1 = true →
      (delete_order id2 os).2.length < os.length := by
  constructor
  · have hfix : orders.filter (fun o => o.order_id != order_id) = orders := by
      rw [List.filter_eq_self]
      intro a ha
      simpa using habsent a ha
    simp [delete_order, hfix]
  · intro id2 os
    simp only [delete_order]
    split_ifs with h
    · intro hco
      simp at hco
    · intro _
      show (os.filter (fun o => o.order_id != id2)).length < os.length
      have hle := List.length_filter_le (fun o => o.order_id != id2) os
      omega

/-- C10 witness at a concrete one-record store and a missing id. -/
theorem C10_delete_missing_witness :
    delete_order "X" [(⟨"A", "t", 1⟩ : LedgerRecord ℕ)] =
      (false, [(⟨"A", "t", 1⟩ : LedgerRecord ℕ)]) :=
  (C10_delete_missing "X" [(⟨"A", "t", 1⟩ : LedgerRecord ℕ)] (by decide)).1

/-! ## Claim C9 — executor state frame property -/

/-- The frame relation that survives on the source: the mock-mode flag is
never mutated, and in mock mode the whole executor state is unchanged. -/
def FrameKept (s t : ExecState) : Prop :=
  t.is_mock_mode = s.is_mock_mode ∧ (s.is_mock_mode = true → t = s)

theorem FrameKept.rfl {s : ExecState} : FrameKept s s :=
  ⟨Eq.refl _, fun _ => Eq.refl _⟩

theorem FrameKept.trans {s t u : ExecState} (h1 : FrameKept s t)
    (h2 : FrameKept t u) : FrameKept s u := by
  refine ⟨h2.1.trans h1.1, fun hm => ?_⟩
  rw [h2.2 (by rw [h1.1, hm]), h1.2 hm]

theorem connect_is_mock (env : Env) (now : ℕ) (s : ExecState) :
    (connect env now s).2.is_mock_mode = s.is_mock_mode := by
  unfold connect
  split_ifs <;> rfl

theorem reconnect_is_mock (env : Env) (now : ℕ) (s : ExecState) :
    (reconnect env now s).2.is_mock_mode = s.is_mock_mode := by
  unfold reconnect disconnect
  split_ifs <;> simp [connect_is_mock]

theorem check_connection_frame (env : Env) (now : ℕ) (s : ExecState) :
    FrameKept s (check_connection env now s).2 := by
  constructor
  · unfold check_connection
    split_ifs <;> simp [connect_is_mock, reconnect_is_mock]
  · intro hm
    simp [check_connection, hm]

theorem place_order_state (env : Env) (now : ℕ) (s : ExecState)
    (stock_code : String) (price : ℚ) (volume : ℤ) (direction : String) :
    (place_order env now s stock_code price volume direction).2 =
      (check_connection env now s).2 := by
  simp only [place_order]
  split_ifs <;> first
    | rfl
    | { rcases env.order_stock with _ | id <;> rfl }

theorem place_order_async_state (env : Env) (now : ℕ) (s : ExecState)
    (stock_code : String) (price : ℚ) (volume : ℤ) (direction : String) :
    (place_order_async env now s stock_code price volume direction).2 =
      (check_connection env now s).2 := by
  simp only [place_order_async]
  split_ifs <;> first
    | rfl
    | { rcases env.order_stock_async with _ | seq <;> rfl }

theorem cancel_order_state (env : Env) (now : ℕ) (s : ExecState) (oid : ℤ) :
    (cancel_order env now s oid).2 = (check_connection env now s).2 := by
  simp only [cancel_order]
  split_ifs <;> try rfl
  split <;> first
    | rfl
    | { split_ifs <;> rfl }

theorem query_asset_state (env : Env) (now : ℕ) (s : ExecState) :
    (query_asset env now s).2 = (check_connection env now s).2 := by
  simp only [query_asset]
  split_ifs <;> rfl

theorem query_order_state (env : Env) (now : ℕ) (s : ExecState) (oid : ℤ) :
    (query_order env now s oid).2 = (check_connection env now s).2 := by
  simp only [query_order]
  split_ifs <;> rfl

theorem query_orders_state (env : Env) (now : ℕ) (s : ExecState) :
    (query_orders env now s).2 = (check_connection env now s).2 := by
  simp only [query_orders]
  split_ifs <;> rfl

theorem query_trades_state (env : Env) (now : ℕ) (s : ExecState) :
    (query_trades env now s).2 = (check_connection env now s).2 := by
  simp only [query_trades]
  split_ifs <;> rfl

theorem query_positions_state (env : Env) (now : ℕ) (s : ExecState) :
    (query_positions env now s).2 = (check_connection env now s).2 := by
  simp only [query_positions]
  split_ifs <;> rfl

theorem query_position_state (env : Env) (now : ℕ) (s : ExecState)
    (stock_code : String) :
    (query_position env now s stock_code).2 = (check_connection env now s).2 := by
  simp only [query_position]
  split_ifs <;> rfl

theorem processBatchOrder_frame (env : Env) (now : ℕ) (s : ExecState)
    (o : BatchOrder) : FrameKept s (processBatchOrder env now s o).2 := by
  simp only [processBatchOrder]
  split_ifs <;> first
    | exact FrameKept.rfl
    | { rw [place_order_state]; exact check_connection_frame env now s }

theorem batch_place_orders_frame (env : Env) (now : ℕ)
    (orders : List BatchOrder) :
    ∀ s : ExecState, FrameKept s (batch_place_orders env now s orders).2 := by
  induction orders with
  | nil => intro s; exact FrameKept.rfl
  | cons o rest ih =>
    intro s
    exact FrameKept.trans (processBatchOrder_frame env now s o)
      (ih (processBatchOrder env now s o).2)

/-- C9 counterexample: in live mode with a live session, a plain
`place_order` call refreshes `_last_heartbeat` through its embedded
`check_connection`, so an operation other than connect/reconnect/disconnect
does mutate the executor state. -/
theorem C9_counterexample :
    (place_order env0 7 ⟨true, false, none, true⟩ "600000.SH" 10 100 "buy").2 =
      ⟨true, false, some 7, true⟩ ∧
    (⟨true, false, none, true⟩ : ExecState).last_heartbeat = none := by
  refine ⟨?_, rfl⟩
  rw [place_order_state]
  rfl

/-- C9 (amended): the mock-mode flag is mutated by no executor operation,
and in mock mode no operation other than connect/reconnect/disconnect
mutates any executor state; in live mode the non-mutating claim fails only
through the embedded `check_connection` (heartbeat refresh or implicit
reconnect), as exhibited by the counterexample. -/
theorem C9_frame_amended (env : Env) (now : ℕ) (s : ExecState)
    (stock_code : String) (price : ℚ) (volume : ℤ) (direction : String)
    (oid : ℤ) (orders : List BatchOrder) :
    FrameKept s (place_order env now s stock_code price volume direction).2 ∧
    FrameKept s (place_order_async env now s stock_code price volume direction).2 ∧
    FrameKept s (batch_place_orders env now s orders).2 ∧
    FrameKept s (cancel_order env now s oid).2 ∧
    FrameKept s (query_asset env now s).2 ∧
    FrameKept s (query_order env now s oid).2 ∧
    FrameKept s (query_orders env now s).2 ∧
    FrameKept s (query_trades env now s).2 ∧
    FrameKept s (query_positions env now s).2 ∧
    FrameKept s (query_position env now s stock_code).2 := by
  have hc := check_connection_frame env now s
  refine ⟨?_, ?_, batch_place_orders_frame env now orders s, ?_, ?_, ?_, ?_, ?_, ?_, ?_⟩
  · rw [place_order_state]; exact hc
  · rw [place_order_async_state]; exact hc
  · rw [cancel_order_state]; exact hc
  · rw [query_asset_state]; exact hc
  · rw [query_order_state]; exact hc
  · rw [query_orders_state]; exact hc
  · rw [query_trades_state]; exact hc
  · rw [query_positions_state]; exact hc
  · rw [query_position_state]; exact hc

/-- C9 witness: in mock mode a `place_order` call leaves the executor state
unchanged (first conjunct of `FrameKept`, second discharged at `rfl`). -/
theorem C9_frame_amended_witness :
    (place_order env0 4 ⟨true, true, none, false⟩ "600000.SH" 10 100 "buy").2 =
      ⟨true, true, none, false⟩ :=
  (C9_frame_amended env0 4 ⟨true, true, none, false⟩ "600000.SH" 10 100 "buy" 1 []).1.2 rfl

/-! ## Claim C1 — pyramid plan shape -/

/-- The spec-side retracement level: `high − (high−low) × ratio` for the
spike window of `li`. -/
def lv (li : LimitInfo) (ratio : ℚ) : ℚ :=
  li.highest_price - (li.highest_price - li.lowest_price) * ratio

/-- C1: for every stock, every capital `T > 0` and every found spike window,
the generated plan has exactly 8 orders: the first 5 have stage 1, prices
the 5 points linearly spaced from the 0.500 level to the 0.618 level
inclusive (spacing = range/4, each rounded to 2 decimals), equal amounts
`round(0.7*T/5, 2)` summing to 70% of capital within 0.05; the last 3 have
stage 2, prices the 3 points linearly spaced from the 0.618 level to the
0.700 level inclusive (spacing = range/2, rounded), equal amounts
`round(0.3*T/3, 2)` summing to 30% of capital within 0.05. -/
theorem C1_pyramid_plan (stock : String) (T : ℚ) (li : LimitInfo)
    (hT : 0 < T) :
    ∃ plan, generate_pyramid_orders stock T (some li) = .ok plan ∧
      plan.orders.length = 8 ∧
      (plan.orders.take 5).map PlannedOrder.stage = [1, 1, 1, 1, 1] ∧
      (plan.orders.take 5).map PlannedOrder.price =
        ((List.range 5).map fun i : ℕ =>
          round2 (lv li 0.500 + (lv li 0.618 - lv li 0.500) * i / 4)) ∧
      (plan.orders.take 5).map PlannedOrder.amount =
        List.replicate 5 (round2 (T * 0.7 / 5)) ∧
      |(((plan.orders.take 5).map PlannedOrder.amount).sum - T * 0.7)| ≤ 0.05 ∧
      (plan.orders.drop 5).map PlannedOrder.stage = [2, 2, 2] ∧
      (plan.orders.drop 5).map PlannedOrder.price =
        ((List.range 3).map fun i : ℕ =>
          round2 (lv li 0.618 + (lv li 0.700 - lv li 0.618) * i / 2)) ∧
      (plan.orders.drop 5).map PlannedOrder.amount =
        List.replicate 3 (round2 (T * 0.3 / 3)) ∧
      |(((plan.orders.drop 5).map PlannedOrder.amount).sum - T * 0.3)| ≤ 0.05 := by
  refine ⟨_, rfl, rfl, rfl, ?_, rfl, ?_, rfl, ?_, rfl, ?_⟩
  · show [round2 _, round2 _, round2 _, round2 _, round2 _] = _
    simp only [generate_pyramid_orders, calculate_fibonacci_levels, linspace, lv,
      show List.range 5 = [0, 1, 2, 3, 4] from rfl,
      List.map_cons, List.map_nil, List.cons.injEq, and_true]
    refine ⟨?_, ?_, ?_, ?_, ?_⟩ <;> { congr 1; push_cast; ring }
  · show |round2 (T * 0.7 / 5) + (round2 (T * 0.7 / 5) + (round2 (T * 0.7 / 5) +
      (round2 (T * 0.7 / 5) + (round2 (T * 0.7 / 5) + 0)))) - T * 0.7| ≤ 0.05
    have hb := abs_round2_sub_le (T * 0.7 / 5)
    have he : round2 (T * 0.7 / 5) + (round2 (T * 0.7 / 5) + (round2 (T * 0.7 / 5) +
        (round2 (T * 0.7 / 5) + (round2 (T * 0.7 / 5) + 0)))) - T * 0.7 =
        5 * (round2 (T * 0.7 / 5) - T * 0.7 / 5) := by ring
    rw [he, abs_mul, show |(5 : ℚ)| = 5 by norm_num]
    linarith
  · show [round2 _, round2 _, round2 _] = _
    simp only [generate_pyramid_orders, calculate_fibonacci_levels, linspace, lv,
      show List.range 3 = [0, 1, 2] from rfl,
      List.map_cons, List.map_nil, List.cons.injEq, and_true]
    refine ⟨?_, ?_, ?_⟩ <;> { congr 1; push_cast; ring }
  · show |round2 (T * 0.3 / 3) + (round2 (T * 0.3 / 3) + (round2 (T * 0.3 / 3) + 0)) -
      T * 0.3| ≤ 0.05
    have hb := abs_round2_sub_le (T * 0.3 / 3)
    have he : round2 (T * 0.3 / 3) + (round2 (T * 0.3 / 3) + (round2 (T * 0.3 / 3) + 0)) -
        T * 0.3 = 3 * (round2 (T * 0.3 / 3) - T * 0.3 / 3) := by ring
    rw [he, abs_mul, show |(3 : ℚ)| = 3 by norm_num]
    linarith

/-- C1 witness at the spec's worked example: 100 000 of capital against the
(high = 100, low = 80) spike window. -/
theorem C1_pyramid_plan_witness :
    0 < (100000 : ℚ) ∧
    ∃ plan, generate_pyramid_orders "sh.600000" 100000 (some li0) = .ok plan ∧
      plan.orders.length = 8 ∧
      (plan.orders.take 5).map PlannedOrder.stage = [1, 1, 1, 1, 1] ∧
      (plan.orders.take 5).map PlannedOrder.price =
        ((List.range 5).map fun i : ℕ =>
          round2 (lv li0 0.500 + (lv li0 0.618 - lv li0 0.500) * i / 4)) ∧
      (plan.orders.take 5).map PlannedOrder.amount =
        List.replicate 5 (round2 ((100000 : ℚ) * 0.7 / 5)) ∧
      |(((plan.orders.take 5).map PlannedOrder.amount).sum - (100000 : ℚ) * 0.7)| ≤ 0.05 ∧
      (plan.orders.drop 5).map PlannedOrder.stage = [2, 2, 2] ∧
      (plan.orders.drop 5).map PlannedOrder.price =
        ((List.range 3).map fun i : ℕ =>
          round2 (lv li0 0.618 + (lv li0 0.700 - lv li0 0.618) * i / 2)) ∧
      (plan.orders.drop 5).map PlannedOrder.amount =
        List.replicate 3 (round2 ((100000 : ℚ) * 0.3 / 3)) ∧
      |(((plan.orders.drop 5).map PlannedOrder.amount).sum - (100000 : ℚ) * 0.3)| ≤ 0.05 :=
  ⟨by norm_num, C1_pyramid_plan "sh.600000" 100000 li0 (by norm_num)⟩

/-! ## Claim C3 — batch placement: one result per order, local failures -/

/-- The validation outcome the batch loop assigns to an order before any
endpoint contact: `some r` when the order fails one of the local checks
(empty stock code, non-positive price or amount, volume below one lot),
`none` when it proceeds to `place_order`. -/
def invalidRes (o : BatchOrder) : Option BatchResult :=
  if pyStrip o.stock_code = "" then some ⟨o, false, none, none, .emptyStockCode⟩
  else if o.price ≤ 0 then some ⟨o, false, none, none, .priceNotPositive o.price⟩
  else if o.amount ≤ 0 then some ⟨o, false, none, none, .amountNotPositive o.amount⟩
  else if calculate_volume o.amount o.price < MIN_LOT_SIZE then
    some ⟨o, false, none, none, .belowOneLot (o.price * MIN_LOT_SIZE)⟩
  else none

theorem processBatchOrder_invalid (env : Env) (now : ℕ) (o : BatchOrder)
    (r : BatchResult) (h : invalidRes o = some r) (s : ExecState) :
    processBatchOrder env now s o = (r, s) := by
  simp only [invalidRes] at h
  simp only [processBatchOrder]
  split_ifs at h ⊢ <;> simp_all

theorem batch_length (env : Env) (now : ℕ) (orders : List BatchOrder) :
    ∀ s : ExecState,
      (batch_place_orders env now s orders).1.length = orders.length := by
  induction orders with
  | nil => intro s; rfl
  | cons o rest ih =>
    intro s
    simp only [batch_place_orders, List.length_cons]
    rw [ih]

theorem batch_get_invalid (env : Env) (now : ℕ) (orders : List BatchOrder) :
    ∀ (s : ExecState) (i : ℕ) (o : BatchOrder) (r : BatchResult),
      orders[i]? = some o → invalidRes o = some r →
      (batch_place_orders env now s orders).1[i]? = some r := by
  induction orders with
  | nil => intro s i o r ho; simp at ho
  | cons a rest ih =>
    intro s i o r ho hr
    match i with
    | 0 =>
      rw [List.getElem?_cons_zero] at ho
      obtain rfl : a = o := by injection ho
      simp only [batch_place_orders, List.getElem?_cons_zero]
      rw [processBatchOrder_invalid env now a r hr s]
    | i + 1 =>
      rw [List.getElem?_cons_succ] at ho
      simp only [batch_place_orders, List.getElem?_cons_succ]
      exact ih _ i o r ho hr

/-- C3: the batch result list always has exactly one entry per input order,
and an order failing a local validation — empty stock code, `price ≤ 0`,
`amount ≤ 0`, or computed volume below one lot (the sub-lot failure naming
the minimum capital `price × 100`) — yields exactly that failure entry at
its own position while every other order is still processed (the result
list keeps full length regardless).  The results store no aggregate counts
(`BatchResult` carries only per-order data; the source merely logs the
tally). -/
theorem C3_batch_per_order (env : Env) (now : ℕ) (s : ExecState)
    (orders : List BatchOrder) :
    (batch_place_orders env now s orders).1.length = orders.length ∧
    ∀ (i : ℕ) (o : BatchOrder), orders[i]? = some o →
      (pyStrip o.stock_code = "" →
        (batch_place_orders env now s orders).1[i]? =
          some ⟨o, false, none, none, .emptyStockCode⟩) ∧
      (pyStrip o.stock_code ≠ "" → o.price ≤ 0 →
        (batch_place_orders env now s orders).1[i]? =
          some ⟨o, false, none, none, .priceNotPositive o.price⟩) ∧
      (pyStrip o.stock_code ≠ "" → 0 < o.price → o.amount ≤ 0 →
        (batch_place_orders env now s orders).1[i]? =
          some ⟨o, false, none, none, .amountNotPositive o.amount⟩) ∧
      (pyStrip o.stock_code ≠ "" → 0 < o.price → 0 < o.amount →
        calculate_volume o.amount o.price < MIN_LOT_SIZE →
        (batch_place_orders env now s orders).1[i]? =
          some ⟨o, false, none, none, .belowOneLot (o.price * MIN_LOT_SIZE)⟩) := by
  refine ⟨batch_length env now orders s, ?_⟩
  intro i o ho
  refine ⟨?_, ?_, ?_, ?_⟩
  · intro h1
    refine batch_get_invalid env now orders s i o _ ho ?_
    simp only [invalidRes, if_pos h1]
  · intro h1 h2
    refine batch_get_invalid env now orders s i o _ ho ?_
    simp only [invalidRes, if_neg h1, if_pos h2]
  · intro h1 h2 h3
    refine batch_get_invalid env now orders s i o _ ho ?_
    simp only [invalidRes, if_neg h1, if_neg (not_le.mpr h2), if_pos h3]
  · intro h1 h2 h3 h4
    refine batch_get_invalid env now orders s i o _ ho ?_
    simp only [invalidRes, if_neg h1, if_neg (not_le.mpr h2),
      if_neg (not_le.mpr h3), if_pos h4]

/-- C3 witness: a two-order batch — an empty stock code and the spec's
sub-lot example `amount = 500, price = 10.5` — yields two entries, the
second the sub-lot failure naming the minimum capital `10.5 × 100 = 1050`. -/
theorem C3_batch_per_order_witness :
    (batch_place_orders env0 9 ⟨true, true, none, false⟩
        [⟨"", 10, 1000⟩, ⟨"600000.SH", 21/2, 500⟩]).1.length = 2 ∧
    (batch_place_orders env0 9 ⟨true, true, none, false⟩
        [⟨"", 10, 1000⟩, ⟨"600000.SH", 21/2, 500⟩]).1[0]? =
      some ⟨⟨"", 10, 1000⟩, false, none, none, .emptyStockCode⟩ ∧
    (batch_place_orders env0 9 ⟨true, true, none, false⟩
        [⟨"", 10, 1000⟩, ⟨"600000.SH", 21/2, 500⟩]).1[1]? =
      some ⟨⟨"600000.SH", 21/2, 500⟩, false, none, none, .belowOneLot 1050⟩ := by
  have h := C3_batch_per_order env0 9 ⟨true, true, none, false⟩
    [⟨"", 10, 1000⟩, ⟨"600000.SH", 21/2, 500⟩]
  have hvol : calculate_volume 500 (21/2) < MIN_LOT_SIZE := by
    have hnp : ¬ (21/2 : ℚ) ≤ 0 := by norm_num
    have hq : (0:ℚ) ≤ (500 : ℚ) / (21/2) := by norm_num
    simp only [calculate_volume, pyInt, LOT_SIZE, MIN_LOT_SIZE, if_neg hnp, if_pos hq]
    have hf : ⌊(500 : ℚ) / (21/2)⌋ = 47 := by norm_num
    rw [hf]
    decide
  refine ⟨h.1, (h.2 0 ⟨"", 10, 1000⟩ rfl).1 (by decide), ?_⟩
  have h2 := (h.2 1 ⟨"600000.SH", 21/2, 500⟩ rfl).2.2.2
    (by decide) (by norm_num) (by norm_num) hvol
  rw [h2]
  norm_num [MIN_LOT_SIZE]

/-! ## Claim C7 — ledger round-trip -/

/-- A concrete ledger record for the `get_recent_orders 0` counterexample. -/
def recA : LedgerRecord ℕ := ⟨"20240101093000000000", "2024-01-01T09:30:00", 7⟩

/-- C7 counterexample: the claim quantifies over every `n`, but
`get_recent_orders 0` returns every stored record (Python `orders[-0:]` is
the whole list), not the latest `0 = n` records. -/
theorem C7_counterexample :
    get_recent_orders 0 [recA] = [recA] := by
  rfl

theorem find?_filter_ne {α : Type} (order_id : String)
    (l : List (LedgerRecord α)) :
    (l.filter (fun o => o.order_id != order_id)).find?
      (fun o => o.order_id == order_id) = none := by
  rw [List.find?_eq_none]
  intro a ha
  have h2 := (List.mem_filter.mp ha).2
  simpa using h2

theorem filter_length_eq {α : Type} (p : α → Bool) :
    ∀ l : List α, (l.filter p).length = l.length → l.filter p = l := by
  intro l
  induction l with
  | nil => intro _; rfl
  | cons a t ih =>
    intro h
    by_cases hp : p a
    · rw [List.filter_cons_of_pos hp] at h ⊢
      simp only [List.length_cons, Nat.add_right_cancel_iff] at h
      rw [ih h]
    · rw [List.filter_cons_of_neg hp] at h
      have hle := List.length_filter_le p t
      simp only [List.length_cons] at h
      omega

/-- C7 (amended to `n ≥ 1`, and assuming the generated time-derived id is
not already present — the uniqueness the spec's id-generation contract
promises): saving then looking up the id returns the freshly saved record
(so its `data` equals the saved plan); deleting an id then looking it up
returns not-found; and `get_recent_orders n` returns the `min n count`
most recently saved records in reverse chronological order. -/
theorem C7_ledger_roundtrip {α : Type} (order_id timestamp : String) (d : α)
    (orders orders2 : List (LedgerRecord α)) (n : ℕ)
    (hfresh : ∀ r ∈ orders, r.order_id ≠ order_id) (hn : 1 ≤ n) :
    (save_order order_id timestamp d orders).1 = order_id ∧
    get_order_by_id order_id (save_order order_id timestamp d orders).2 =
      some ⟨order_id, timestamp, d⟩ ∧
    get_order_by_id order_id (delete_order order_id orders2).2 = none ∧
    (get_recent_orders n orders2).length = min n orders2.length ∧
    (∀ i : ℕ, i < min n orders2.length →
      (get_recent_orders n orders2)[i]? = orders2[orders2.length - 1 - i]?) := by
  have hn0 : n ≠ 0 := Nat.one_le_iff_ne_zero.mp hn
  refine ⟨rfl, ?_, ?_, ?_, ?_⟩
  · simp only [get_order_by_id, save_order, List.find?_append]
    have h1 : orders.find? (fun o => o.order_id == order_id) = none := by
      rw [List.find?_eq_none]
      intro a ha
      simpa using hfresh a ha
    rw [h1]
    simp [List.find?]
  · simp only [delete_order]
    split_ifs with h
    · have hfix := filter_length_eq (fun o => o.order_id != order_id) orders2 h
      show get_order_by_id order_id orders2 = none
      rw [← hfix]
      exact find?_filter_ne order_id orders2
    · exact find?_filter_ne order_id orders2
  · simp only [get_recent_orders, if_neg hn0, List.length_reverse, List.length_drop]
    omega
  · intro i hi
    simp only [get_recent_orders, if_neg hn0]
    have hlen : i < (orders2.drop (orders2.length - n)).length := by
      rw [List.length_drop]
      omega
    rw [List.getElem?_reverse hlen, List.getElem?_drop, List.length_drop]
    congr 1
    omega

/-- C7 witness: a two-record store, a fresh id, and `n = 1`. -/
theorem C7_ledger_roundtrip_witness :
    (save_order "B" "t9" (5 : ℕ) [⟨"A", "t1", 1⟩]).1 = "B" ∧
    get_order_by_id "B" (save_order "B" "t9" (5 : ℕ) [⟨"A", "t1", 1⟩]).2 =
      some ⟨"B", "t9", 5⟩ ∧
    get_order_by_id "B"
      (delete_order "B" [(⟨"X", "t2", 2⟩ : LedgerRecord ℕ), ⟨"Y", "t3", 3⟩]).2 = none ∧
    (get_recent_orders 1 [(⟨"X", "t2", 2⟩ : LedgerRecord ℕ), ⟨"Y", "t3", 3⟩]).length =
      min 1 2 ∧
    (get_recent_orders 1 [(⟨"X", "t2", 2⟩ : LedgerRecord ℕ), ⟨"Y", "t3", 3⟩])[0]? =
      [(⟨"X", "t2", 2⟩ : LedgerRecord ℕ), ⟨"Y", "t3", 3⟩][2 - 1 - 0]? := by
  have h := C7_ledger_roundtrip "B" "t9" (5 : ℕ) [⟨"A", "t1", 1⟩]
    [⟨"X", "t2", 2⟩, ⟨"Y", "t3", 3⟩] 1 (by decide) (by decide)
  exact ⟨h.1, h.2.1, h.2.2.1, h.2.2.2.1, h.2.2.2.2 0 (by decide)⟩

end Snapback
